import Mathlib

/-!
Shallow embedding of the MatrixBridge event-relay pipeline (src/main.py).

The source is a single Python file defining `class MatrixBot(AsyncClient)` with
  - `__init__` setting `self.last_event_timestamp = int(time.time() * 1000)`,
  - `transform_mxc_url` (the Media Locator),
  - `check_timestamp` (the Watermark Filter),
  - `download_media` (the Media Fetcher),
  - four event callbacks (`message_callback`, `image_callback`,
    `audio_callback`, `file_callback`) that filter, normalize and dispatch.

Modelling conventions:
  - The mutable bot state (the single field the pipeline mutates,
    `last_event_timestamp`) is threaded explicitly as `BotState`.
  - Python exceptions are `Except String` values: a function that can raise
    returns `.error msg`, and a caller without a try/except propagates it.
  - Network effects are parameters: `download_media` takes the result of the
    HTTP GET it would perform, either `.error e` (the network raised `e`) or
    `.ok (status, body)` with `body` the response bytes; the image handler
    takes the same parameter and passes it through. The outbound webhook POST
    is modelled by returning the list of dispatched JSON payloads.
  - JSON payloads are association lists over `JVal` (string or null), in the
    key order the Python dict literals use.
-/

deriving instance DecidableEq for Except

/-- A JSON value as the payload dict literals use them: a string or `None`. -/
inductive JVal where
  | str (s : String)
  | nullv
deriving DecidableEq, Repr

/-- A normalized webhook payload: a JSON object as an association list. -/
abbrev Payload := List (String × JVal)

/-- Wrap a Python value that may be `None` (`media_data` in the image payload). -/
def jopt : Option String → JVal
  | some s => JVal.str s
  | none => JVal.nullv

/-- The mutable state of the bot that the pipeline touches:
`self.last_event_timestamp`, the watermark (milliseconds since epoch). -/
structure BotState where
  last_event_timestamp : Int
deriving DecidableEq, Repr

/-- `MatrixBot.__init__`: the watermark starts as `int(time.time() * 1000)`,
the process start time in milliseconds, supplied here as a parameter. -/
def matrixBot_init_state (start_time_ms : Int) : BotState :=
  { last_event_timestamp := start_time_ms }

/-- Fields of a `RoomMessageText` event that `message_callback` reads. -/
structure TextEvent where
  sender : String
  body : String
  event_id : String
  server_timestamp : Int

/-- Fields of a `RoomMessageImage` / `RoomMessageAudio` / `RoomMessageFile`
event that the media callbacks read. -/
structure MediaEvent where
  sender : String
  url : String
  event_id : String
  server_timestamp : Int

/-- `MatrixBot.check_timestamp` (the Watermark Filter): if the event's
`server_timestamp` is greater than `last_event_timestamp`, update the
watermark and return `True`; otherwise return `False` and leave it alone. -/
def check_timestamp (st : BotState) (server_timestamp : Int) : Bool × BotState :=
  if server_timestamp > st.last_event_timestamp then
    (true, { last_event_timestamp := server_timestamp })
  else
    (false, st)

/-- Python `str.startswith(p)`: the characters of `p` are a prefix of the
characters of `s`. Implemented on character lists so the kernel can
evaluate it on concrete inputs. -/
def pyStartsWith (s p : String) : Bool :=
  p.toList.isPrefixOf s.toList

/-- Helper for Python `str.replace`: scan left to right; on a match of the
(nonempty) pattern emit the replacement and skip the rest of the matched
characters (the `skip` counter), giving Python's non-overlapping
left-to-right replacement. Structurally recursive on the scanned list. -/
def replaceAux (pat rep : List Char) : List Char → Nat → List Char
  | [], _ => []
  | c :: cs, 0 =>
      if pat.isPrefixOf (c :: cs) && !pat.isEmpty then
        rep ++ replaceAux pat rep cs (pat.length - 1)
      else
        c :: replaceAux pat rep cs 0
  | _ :: cs, skip + 1 => replaceAux pat rep cs skip

/-- Python `str.replace(pat, rep)` for a nonempty pattern. -/
def pyReplace (s pat rep : String) : String :=
  String.mk (replaceAux pat.toList rep.toList s.toList 0)

/-- Helper for Python `str.split(sep)` with a one-character separator:
split the character list at every occurrence of `sep`, keeping empty
pieces, so that the empty input yields one empty piece as Python does. -/
def splitOnChar (sep : Char) : List Char → List (List Char)
  | [] => [[]]
  | c :: cs =>
      let r := splitOnChar sep cs
      if c = sep then [] :: r
      else
        match r with
        | [] => [[c]]
        | w :: ws => (c :: w) :: ws

/-- Python `str.split(sep)` for a one-character separator string. -/
def pySplit (s : String) (sep : Char) : List String :=
  (splitOnChar sep s.toList).map String.mk

/-- `MatrixBot.transform_mxc_url` (the Media Locator). The Python body:
if the input does not start with `mxc://`, return `None`; otherwise
`server_name, media_id = mxc_url.replace("mxc://", "").split("/")` — an
unpacking that raises `ValueError` unless the split yields exactly two
parts — and build the download URL from the configured homeserver. -/
def transform_mxc_url (homeserver : String) (mxc_url : String) : Except String (Option String) :=
  if !(pyStartsWith mxc_url "mxc://") then
    Except.ok none
  else
    match pySplit (pyReplace mxc_url "mxc://" "") '/' with
    | [server_name, media_id] =>
        Except.ok (some (homeserver ++ "/_matrix/v3/download/" ++ server_name ++ "/" ++ media_id))
    | _ => Except.error "ValueError: unpacking split result"

/-- The base64 alphabet, index 0 to 63. -/
def base64Chars : List Char :=
  "ABCDEFGHIJKLMNOPQRSTUVWXYZabcdefghijklmnopqrstuvwxyz0123456789+/".toList

/-- The base64 digit for a 6-bit value. -/
def b64Char (n : Nat) : Char := base64Chars.getD n 'A'

/-- Standard base64 of a byte list (each entry < 256), as
`base64.b64encode(...).decode()` produces it, padding included. -/
def base64Encode : List Nat → String
  | [] => ""
  | [a] =>
      String.mk [b64Char (a / 4), b64Char (a % 4 * 16), '=', '=']
  | [a, b] =>
      String.mk [b64Char (a / 4), b64Char (a % 4 * 16 + b / 16), b64Char (b % 16 * 4), '=']
  | a :: b :: c :: rest =>
      String.mk [b64Char (a / 4), b64Char (a % 4 * 16 + b / 16),
                 b64Char (b % 16 * 4 + c / 64), b64Char (c % 64)]
        ++ base64Encode rest

/-- `MatrixBot.download_media` (the Media Fetcher). `httpResp` is what the
single `session.get(url)` produces: `.error e` when the HTTP client raises
`e` (there is no try/except around the call, so the error passes through),
or `.ok (status, body)`. On status 200 the body is re-encoded as base64;
on any other status the content is `None` and the status is returned. -/
def download_media (httpResp : Except String (Nat × List Nat)) :
    Except String (Option String × Nat) :=
  match httpResp with
  | Except.error e => Except.error e
  | Except.ok (status, body) =>
      if status = 200 then
        Except.ok (some (base64Encode body), status)
      else
        Except.ok (none, status)

/-- `MatrixBot.message_callback`: run the Watermark Filter; on rejection
return with nothing dispatched; on acceptance dispatch the text payload. -/
def message_callback (st : BotState) (room_id : String) (event : TextEvent) :
    BotState × List Payload :=
  let c := check_timestamp st event.server_timestamp
  if !c.1 then
    (c.2, [])
  else
    (c.2, [[("type", JVal.str "text"),
            ("sender", JVal.str event.sender),
            ("message", JVal.str event.body),
            ("event_id", JVal.str event.event_id),
            ("room_id", JVal.str room_id)]])

/-- `MatrixBot.image_callback`. After the Watermark Filter accepts, the
Python is `media_data, response_status = await self.download_media(image_url)
if image_url else None`: when `transform_mxc_url` returns `None` the
conditional expression evaluates to `None` and the tuple unpacking raises
`TypeError`; when it raises `ValueError` that propagates; otherwise the
fetch result is unpacked and the image payload dispatched. -/
def image_callback (homeserver : String) (st : BotState) (room_id : String)
    (event : MediaEvent) (httpResp : Except String (Nat × List Nat)) :
    BotState × Except String (List Payload) :=
  let c := check_timestamp st event.server_timestamp
  if !c.1 then
    (c.2, Except.ok [])
  else
    match transform_mxc_url homeserver event.url with
    | Except.error e => (c.2, Except.error e)
    | Except.ok none =>
        (c.2, Except.error "TypeError: cannot unpack non-iterable NoneType object")
    | Except.ok (some image_url) =>
        match download_media httpResp with
        | Except.error e => (c.2, Except.error e)
        | Except.ok (media_data, _response_status) =>
            (c.2, Except.ok [[("type", JVal.str "image"),
                              ("sender", JVal.str event.sender),
                              ("url", JVal.str image_url),
                              ("event_id", JVal.str event.event_id),
                              ("room_id", JVal.str room_id),
                              ("data", jopt media_data)]])

/-- `MatrixBot.audio_callback`: filter, locate (no fetch), dispatch. The
located URL may be `None` and is placed in the payload as-is (JSON null);
a `ValueError` from `transform_mxc_url` propagates. -/
def audio_callback (homeserver : String) (st : BotState) (room_id : String)
    (event : MediaEvent) : BotState × Except String (List Payload) :=
  let c := check_timestamp st event.server_timestamp
  if !c.1 then
    (c.2, Except.ok [])
  else
    match transform_mxc_url homeserver event.url with
    | Except.error e => (c.2, Except.error e)
    | Except.ok audio_url =>
        (c.2, Except.ok [[("type", JVal.str "audio"),
                          ("sender", JVal.str event.sender),
                          ("url", jopt audio_url),
                          ("event_id", JVal.str event.event_id),
                          ("room_id", JVal.str room_id)]])

/-- `MatrixBot.file_callback`: identical to the audio handler with type
`"file"`. -/
def file_callback (homeserver : String) (st : BotState) (room_id : String)
    (event : MediaEvent) : BotState × Except String (List Payload) :=
  let c := check_timestamp st event.server_timestamp
  if !c.1 then
    (c.2, Except.ok [])
  else
    match transform_mxc_url homeserver event.url with
    | Except.error e => (c.2, Except.error e)
    | Except.ok file_url =>
        (c.2, Except.ok [[("type", JVal.str "file"),
                          ("sender", JVal.str event.sender),
                          ("url", jopt file_url),
                          ("event_id", JVal.str event.event_id),
                          ("room_id", JVal.str room_id)]])

/-- Feeding a sequence of event timestamps through the Watermark Filter in
order, collecting each accept/reject verdict and the final watermark. -/
def runFilter (st : BotState) : List Int → List Bool × BotState
  | [] => ([], st)
  | t :: ts =>
      let c := check_timestamp st t
      let r := runFilter c.2 ts
      (c.1 :: r.1, r.2)

/-- Whether a fetch result propagates an error to the caller. -/
def propagatesError (r : Except String (Option String × Nat)) : Bool :=
  match r with
  | Except.error _ => true
  | Except.ok _ => false

/-- Modelled from the spec: the media-reference scheme
`scheme://authority/identifier` of the chat protocol (whose scheme is
`mxc`), with exactly one authority segment and one identifier segment,
both nonempty. Used only to state claims about non-conforming input. -/
def spec_matchesScheme (s : String) : Bool :=
  pyStartsWith s "mxc://" &&
  (match pySplit (String.mk (s.toList.drop 6)) '/' with
   | [authority, ident] => !authority.isEmpty && !ident.isEmpty
   | _ => false)

section WatermarkLemmas

/-- A stale timestamp (at or below the watermark) leaves `check_timestamp`
returning `false` with the state untouched. -/
lemma check_timestamp_stale {st : BotState} {ts : Int}
    (h : ts ≤ st.last_event_timestamp) :
    check_timestamp st ts = (false, st) := by
  unfold check_timestamp
  rw [if_neg (by omega)]

/-- A fresh timestamp (above the watermark) makes `check_timestamp` return
`true` and advance the watermark to it. -/
lemma check_timestamp_fresh {st : BotState} {ts : Int}
    (h : st.last_event_timestamp < ts) :
    check_timestamp st ts = (true, { last_event_timestamp := ts }) := by
  unfold check_timestamp
  rw [if_pos (by omega)]

/-- The state `check_timestamp` returns carries the larger of the old
watermark and the event timestamp, expressed by the accept condition. -/
lemma check_timestamp_snd_last (st : BotState) (ts : Int) :
    (check_timestamp st ts).2.last_event_timestamp =
      if ts > st.last_event_timestamp then ts else st.last_event_timestamp := by
  unfold check_timestamp
  split <;> rfl

/-- `check_timestamp` never moves the watermark backwards. -/
lemma check_timestamp_snd_mono (st : BotState) (ts : Int) :
    st.last_event_timestamp ≤ (check_timestamp st ts).2.last_event_timestamp := by
  unfold check_timestamp
  split
  · simp only []
    omega
  · exact le_refl _

/-- The text handler's resulting state is exactly the Watermark Filter's. -/
lemma message_callback_fst (st : BotState) (room_id : String) (ev : TextEvent) :
    (message_callback st room_id ev).1 = (check_timestamp st ev.server_timestamp).2 := by
  by_cases h : ev.server_timestamp ≤ st.last_event_timestamp
  · simp [message_callback, check_timestamp_stale h]
  · push_neg at h
    simp [message_callback, check_timestamp_fresh h]

/-- The image handler's resulting state is exactly the Watermark Filter's,
in every branch, including the raising ones. -/
lemma image_callback_fst (homeserver : String) (st : BotState) (room_id : String)
    (ev : MediaEvent) (httpResp : Except String (Nat × List Nat)) :
    (image_callback homeserver st room_id ev httpResp).1 =
      (check_timestamp st ev.server_timestamp).2 := by
  by_cases h : ev.server_timestamp ≤ st.last_event_timestamp
  · simp [image_callback, check_timestamp_stale h]
  · push_neg at h
    rcases htr : transform_mxc_url homeserver ev.url with e | o
    · simp [image_callback, check_timestamp_fresh h, htr]
    · rcases o with _ | u
      · simp [image_callback, check_timestamp_fresh h, htr]
      · rcases hdl : download_media httpResp with e2 | p
        · simp [image_callback, check_timestamp_fresh h, htr, hdl]
        · rcases p with ⟨md, sc⟩
          simp [image_callback, check_timestamp_fresh h, htr, hdl]

/-- The audio handler's resulting state is exactly the Watermark Filter's. -/
lemma audio_callback_fst (homeserver : String) (st : BotState) (room_id : String)
    (ev : MediaEvent) :
    (audio_callback homeserver st room_id ev).1 =
      (check_timestamp st ev.server_timestamp).2 := by
  by_cases h : ev.server_timestamp ≤ st.last_event_timestamp
  · simp [audio_callback, check_timestamp_stale h]
  · push_neg at h
    rcases htr : transform_mxc_url homeserver ev.url with e | o
    · simp [audio_callback, check_timestamp_fresh h, htr]
    · simp [audio_callback, check_timestamp_fresh h, htr]

/-- The file handler's resulting state is exactly the Watermark Filter's. -/
lemma file_callback_fst (homeserver : String) (st : BotState) (room_id : String)
    (ev : MediaEvent) :
    (file_callback homeserver st room_id ev).1 =
      (check_timestamp st ev.server_timestamp).2 := by
  by_cases h : ev.server_timestamp ≤ st.last_event_timestamp
  · simp [file_callback, check_timestamp_stale h]
  · push_neg at h
    rcases htr : transform_mxc_url homeserver ev.url with e | o
    · simp [file_callback, check_timestamp_fresh h, htr]
    · simp [file_callback, check_timestamp_fresh h, htr]

end WatermarkLemmas

/-- C1: the watermark is one process-wide integer initialized to the process
start time in milliseconds; each of the four event-kind handlers runs the
accept check and either leaves the watermark unchanged (rejection) or
advances it to the accepted event's `server_timestamp`, so across every
pipeline operation it is monotonically non-decreasing. -/
theorem watermark_monotone_nondecreasing (start_time_ms : Int) (homeserver : String)
    (st : BotState) (room_id : String) (tev : TextEvent) (mev : MediaEvent)
    (httpResp : Except String (Nat × List Nat)) :
    (matrixBot_init_state start_time_ms).last_event_timestamp = start_time_ms ∧
    st.last_event_timestamp ≤ (message_callback st room_id tev).1.last_event_timestamp ∧
    (message_callback st room_id tev).1.last_event_timestamp =
      (if tev.server_timestamp > st.last_event_timestamp then tev.server_timestamp
       else st.last_event_timestamp) ∧
    st.last_event_timestamp ≤
      (image_callback homeserver st room_id mev httpResp).1.last_event_timestamp ∧
    (image_callback homeserver st room_id mev httpResp).1.last_event_timestamp =
      (if mev.server_timestamp > st.last_event_timestamp then mev.server_timestamp
       else st.last_event_timestamp) ∧
    st.last_event_timestamp ≤
      (audio_callback homeserver st room_id mev).1.last_event_timestamp ∧
    (audio_callback homeserver st room_id mev).1.last_event_timestamp =
      (if mev.server_timestamp > st.last_event_timestamp then mev.server_timestamp
       else st.last_event_timestamp) ∧
    st.last_event_timestamp ≤
      (file_callback homeserver st room_id mev).1.last_event_timestamp ∧
    (file_callback homeserver st room_id mev).1.last_event_timestamp =
      (if mev.server_timestamp > st.last_event_timestamp then mev.server_timestamp
       else st.last_event_timestamp) := by
  rw [message_callback_fst, image_callback_fst, audio_callback_fst, file_callback_fst]
  exact ⟨rfl,
    check_timestamp_snd_mono st tev.server_timestamp,
    check_timestamp_snd_last st tev.server_timestamp,
    check_timestamp_snd_mono st mev.server_timestamp,
    check_timestamp_snd_last st mev.server_timestamp,
    check_timestamp_snd_mono st mev.server_timestamp,
    check_timestamp_snd_last st mev.server_timestamp,
    check_timestamp_snd_mono st mev.server_timestamp,
    check_timestamp_snd_last st mev.server_timestamp⟩

/-- C2 counterexample: the strictly increasing one-event sequence with
timestamp 5, fed to a filter whose watermark is 1000 (the watermark starts
at the process start time, not below every possible timestamp), is not
accepted, and the final watermark is 1000, not the last timestamp 5. -/
theorem runFilter_strict_increasing_counterexample :
    List.Chain' (· < ·) [(5 : Int)] ∧
    (runFilter { last_event_timestamp := 1000 } [(5 : Int)]).1.all id = false ∧
    (runFilter { last_event_timestamp := 1000 } [(5 : Int)]).2.last_event_timestamp = 1000 :=
  ⟨List.chain'_singleton 5, by decide, by decide⟩

/-- C2 amended: for a sequence of events with strictly increasing
`server_timestamp` whose first timestamp exceeds the current watermark,
the Watermark Filter accepts every event and afterwards the watermark
equals the last event's timestamp. -/
theorem runFilter_strict_increasing_accepts_all (st : BotState) (ts : List Int)
    (hchain : List.Chain' (· < ·) ts)
    (hhead : ∀ t0 ∈ ts.head?, st.last_event_timestamp < t0) :
    (runFilter st ts).1.all id = true ∧
    (runFilter st ts).2.last_event_timestamp = ts.getLastD st.last_event_timestamp := by
  induction ts generalizing st with
  | nil => exact ⟨rfl, rfl⟩
  | cons t rest ih =>
      have ht : st.last_event_timestamp < t := hhead t rfl
      obtain ⟨hrel, hchain2⟩ := List.chain'_cons'.mp hchain
      have hstep := check_timestamp_fresh ht
      have hrec := ih { last_event_timestamp := t } hchain2 hrel
      constructor
      · simp [runFilter, hstep, hrec.1]
      · have h2 := hrec.2
        simp only [runFilter, hstep]
        rw [List.getLastD_cons]
        exact h2

/-- C2 amended, witnessed: watermark 500 and sequence 600, 700 — both
accepted and the final watermark is 700. -/
theorem runFilter_strict_increasing_accepts_all_witness :
    (runFilter { last_event_timestamp := 500 } [(600 : Int), 700]).1.all id = true ∧
    (runFilter { last_event_timestamp := 500 } [(600 : Int), 700]).2.last_event_timestamp = 700 :=
  ⟨(runFilter_strict_increasing_accepts_all { last_event_timestamp := 500 } [600, 700]
      (List.chain'_cons.mpr ⟨by norm_num, List.chain'_singleton 700⟩)
      (by intro t0 h0; simp at h0; subst h0; decide)).1,
   ((runFilter_strict_increasing_accepts_all { last_event_timestamp := 500 } [600, 700]
      (List.chain'_cons.mpr ⟨by norm_num, List.chain'_singleton 700⟩)
      (by intro t0 h0; simp at h0; subst h0; decide)).2).trans (by decide)⟩

/-- C3: an event whose `server_timestamp` is at or below the watermark is
rejected by `check_timestamp` (which returns `false` and leaves the state
untouched), and every one of the four handlers returns with the state
unchanged, no payload dispatched and no error raised. -/
theorem stale_event_no_dispatch (homeserver : String) (st : BotState) (room_id : String)
    (tev : TextEvent) (mev : MediaEvent) (httpResp : Except String (Nat × List Nat))
    (htext : tev.server_timestamp ≤ st.last_event_timestamp)
    (hmedia : mev.server_timestamp ≤ st.last_event_timestamp) :
    check_timestamp st tev.server_timestamp = (false, st) ∧
    check_timestamp st mev.server_timestamp = (false, st) ∧
    message_callback st room_id tev = (st, []) ∧
    image_callback homeserver st room_id mev httpResp = (st, Except.ok []) ∧
    audio_callback homeserver st room_id mev = (st, Except.ok []) ∧
    file_callback homeserver st room_id mev = (st, Except.ok []) := by
  have h1 := check_timestamp_stale htext
  have h2 := check_timestamp_stale hmedia
  exact ⟨h1, h2, by simp [message_callback, h1], by simp [image_callback, h2],
         by simp [audio_callback, h2], by simp [file_callback, h2]⟩

/-- C3, witnessed: an equal-timestamp text replay (1000 at watermark 1000)
and a lower-timestamp image event (400 at watermark 1000) both yield the
unchanged state and no dispatched payload. -/
theorem stale_event_no_dispatch_witness :
    message_callback { last_event_timestamp := 1000 } "!r:h"
      { sender := "@a:h", body := "hi", event_id := "$1", server_timestamp := 1000 } =
      ({ last_event_timestamp := 1000 }, []) ∧
    image_callback "https://h" { last_event_timestamp := 1000 } "!r:h"
      { sender := "@a:h", url := "mxc://hostA/id123", event_id := "$2",
        server_timestamp := 400 } (Except.ok (200, [])) =
      ({ last_event_timestamp := 1000 }, Except.ok []) :=
  ⟨(stale_event_no_dispatch "https://h" { last_event_timestamp := 1000 } "!r:h"
      { sender := "@a:h", body := "hi", event_id := "$1", server_timestamp := 1000 }
      { sender := "@a:h", url := "mxc://hostA/id123", event_id := "$2",
        server_timestamp := 400 } (Except.ok (200, []))
      (by decide) (by decide)).2.2.1,
   (stale_event_no_dispatch "https://h" { last_event_timestamp := 1000 } "!r:h"
      { sender := "@a:h", body := "hi", event_id := "$1", server_timestamp := 1000 }
      { sender := "@a:h", url := "mxc://hostA/id123", event_id := "$2",
        server_timestamp := 400 } (Except.ok (200, []))
      (by decide) (by decide)).2.2.2.1⟩

/-- C4: the text Raw Event with sender `@a:h`, body `hi`, event id `$1`,
room `!r:h` and timestamp 1000, at watermark 500, dispatches exactly one
payload with keys type, sender, message, event_id, room_id in that order
and values text, `@a:h`, `hi`, `$1`, `!r:h`, and the watermark becomes
1000. -/
theorem text_event_end_to_end :
    message_callback { last_event_timestamp := 500 } "!r:h"
      { sender := "@a:h", body := "hi", event_id := "$1", server_timestamp := 1000 } =
      ({ last_event_timestamp := 1000 },
       [[("type", JVal.str "text"), ("sender", JVal.str "@a:h"),
         ("message", JVal.str "hi"), ("event_id", JVal.str "$1"),
         ("room_id", JVal.str "!r:h")]]) := by
  decide

/-- C5 counterexample: `mxc://hostonly` does not match the media-reference
scheme (it has no identifier segment), yet the Media Locator does not
return `None`: the two-variable unpacking of the one-element split raises
`ValueError`. -/
theorem locator_malformed_reference_raises :
    spec_matchesScheme "mxc://hostonly" = false ∧
    transform_mxc_url "https://h" "mxc://hostonly" =
      Except.error "ValueError: unpacking split result" :=
  ⟨by decide, by decide⟩

/-- C5 amended: every input string that does not start with the `mxc://`
prefix yields `None` from the Media Locator without failing; an input with
the prefix whose remainder does not split into exactly one authority and
one identifier instead raises `ValueError`. -/
theorem transform_mxc_url_no_prefix_none (homeserver s : String)
    (h : pyStartsWith s "mxc://" = false) :
    transform_mxc_url homeserver s = Except.ok none := by
  unfold transform_mxc_url
  rw [h]
  rfl

/-- C5 amended, witnessed at the spec's non-conforming example: an `http`
URL has no `mxc://` prefix and the locator returns `None`. -/
theorem transform_mxc_url_no_prefix_none_witness :
    pyStartsWith "https://example/img.png" "mxc://" = false ∧
    transform_mxc_url "https://h" "https://example/img.png" = Except.ok none :=
  ⟨by decide,
   transform_mxc_url_no_prefix_none "https://h" "https://example/img.png" (by decide)⟩

/-- C6: evaluating the image handler where the Media Locator yields
"not found" (a non-`mxc` URL) on a fresh event: the Python
`media_data, response_status = ... if image_url else None` unpacks `None`
and raises `TypeError`; the watermark was already advanced to 1000 before
the crash. The claim that the handler never raises is contradicted at this
input. -/
theorem image_callback_crashes_on_unlocated_media :
    image_callback "https://h" { last_event_timestamp := 500 } "!r:h"
      { sender := "@a:h", url := "https://example/img.png", event_id := "$1",
        server_timestamp := 1000 } (Except.ok (200, [])) =
      ({ last_event_timestamp := 1000 },
       Except.error "TypeError: cannot unpack non-iterable NoneType object") := by
  decide

/-- C7 counterexample: a concrete accepted image event (fresh timestamp,
`mxc://hostA/id123`, HTTP 200 with body `abc`) dispatches a payload whose
keys are type, sender, url, event_id, room_id and data only — there is no
`media_id` key. -/
theorem image_payload_no_media_id_key :
    (image_callback "https://h" { last_event_timestamp := 500 } "!r:h"
        { sender := "@a:h", url := "mxc://hostA/id123", event_id := "$1",
          server_timestamp := 1000 } (Except.ok (200, [97, 98, 99]))).2 =
      Except.ok [[("type", JVal.str "image"), ("sender", JVal.str "@a:h"),
                  ("url", JVal.str "https://h/_matrix/v3/download/hostA/id123"),
                  ("event_id", JVal.str "$1"), ("room_id", JVal.str "!r:h"),
                  ("data", JVal.str "YWJj")]] ∧
    "media_id" ∉
      ([("type", JVal.str "image"), ("sender", JVal.str "@a:h"),
        ("url", JVal.str "https://h/_matrix/v3/download/hostA/id123"),
        ("event_id", JVal.str "$1"), ("room_id", JVal.str "!r:h"),
        ("data", JVal.str "YWJj")] : Payload).map Prod.fst :=
  ⟨by decide, by decide⟩

/-- C7 amended: every accepted image event whose media reference the
locator resolves dispatches exactly one payload with the keys type (valued
`image`), sender, url, event_id, room_id and data (base64 content on HTTP
200, null otherwise); no `media_id` key is produced. -/
theorem image_payload_shape (homeserver : String) (st : BotState) (room_id : String)
    (ev : MediaEvent) (status : Nat) (body : List Nat)
    (hts : st.last_event_timestamp < ev.server_timestamp) (u : String)
    (htr : transform_mxc_url homeserver ev.url = Except.ok (some u)) :
    (image_callback homeserver st room_id ev (Except.ok (status, body))).2 =
      Except.ok [[("type", JVal.str "image"), ("sender", JVal.str ev.sender),
                  ("url", JVal.str u), ("event_id", JVal.str ev.event_id),
                  ("room_id", JVal.str room_id),
                  ("data", jopt (if status = 200 then some (base64Encode body)
                                 else none))]] := by
  by_cases h200 : status = 200
  · simp [image_callback, check_timestamp_fresh hts, htr, download_media, h200]
  · simp [image_callback, check_timestamp_fresh hts, htr, download_media, h200]

/-- C7 amended, witnessed: a fresh image event whose media fetch answers
HTTP 404 still dispatches the six-key payload, with null data. -/
theorem image_payload_shape_witness :
    (image_callback "https://h" { last_event_timestamp := 500 } "!r:h"
        { sender := "@b:h", url := "mxc://hostA/id123", event_id := "$2",
          server_timestamp := 1000 } (Except.ok (404, []))).2 =
      Except.ok [[("type", JVal.str "image"), ("sender", JVal.str "@b:h"),
                  ("url", JVal.str "https://h/_matrix/v3/download/hostA/id123"),
                  ("event_id", JVal.str "$2"), ("room_id", JVal.str "!r:h"),
                  ("data", JVal.nullv)]] :=
  (image_payload_shape "https://h" { last_event_timestamp := 500 } "!r:h"
    { sender := "@b:h", url := "mxc://hostA/id123", event_id := "$2",
      server_timestamp := 1000 } 404 [] (by decide)
    "https://h/_matrix/v3/download/hostA/id123" (by decide)).trans (by decide)

/-- C8 counterexample: the literal media reference `proto://hostA/id123`
does not carry the `mxc://` prefix the code tests for, so the Media
Locator returns `None` instead of producing a download URL. -/
theorem locator_proto_reference_not_found :
    transform_mxc_url "https://h" "proto://hostA/id123" = Except.ok none := by
  decide

/-- C8 amended: with the chat protocol's actual scheme, the reference
`mxc://hostA/id123` and homeserver `https://h` produce the download URL
`https://h/_matrix/v3/download/hostA/id123`, whose segments include the
authority `hostA` and end with the extracted identifier `id123`. -/
theorem locator_mxc_reference_url :
    transform_mxc_url "https://h" "mxc://hostA/id123" =
      Except.ok (some "https://h/_matrix/v3/download/hostA/id123") ∧
    "hostA" ∈ pySplit "https://h/_matrix/v3/download/hostA/id123" '/' ∧
    (pySplit "https://h/_matrix/v3/download/hostA/id123" '/').getLastD "" = "id123" :=
  ⟨by decide, by decide, by decide⟩

/-- C9: for every HTTP response the Media Fetcher receives from its single
GET, status 200 yields the full body re-encoded as base64 together with
status 200, and any other status yields absent content together with that
status. -/
theorem download_media_status_cases (status : Nat) (body : List Nat) :
    (status = 200 →
      download_media (Except.ok (status, body)) =
        Except.ok (some (base64Encode body), 200)) ∧
    (status ≠ 200 →
      download_media (Except.ok (status, body)) = Except.ok (none, status)) := by
  constructor
  · intro h
    subst h
    simp [download_media]
  · intro h
    simp [download_media, h]

/-- C9, witnessed: body `abc` under status 200 yields its base64 encoding
`YWJj` with status 200, and status 404 yields no content with status 404. -/
theorem download_media_status_cases_witness :
    download_media (Except.ok (200, [97, 98, 99])) = Except.ok (some "YWJj", 200) ∧
    download_media (Except.ok (404, [])) = Except.ok (none, 404) :=
  ⟨((download_media_status_cases 200 [97, 98, 99]).1 rfl).trans (by decide),
   (download_media_status_cases 404 []).2 (by decide)⟩

/-- C10 counterexample: a network error raised by the HTTP client during
the fetch (here a connection error) is propagated out of `download_media`
— there is no try/except around the GET — rather than being turned into
"no content". -/
theorem download_media_error_propagation_counterexample :
    propagatesError (download_media (Except.error "aiohttp.ClientConnectionError")) = true := by
  decide

/-- C10 amended: every network error occurring during a media fetch passes
through the Media Fetcher unchanged to its caller; it is not caught and
not converted into an absent-content result. -/
theorem download_media_propagates_network_error (e : String) :
    download_media (Except.error e) = Except.error e := rfl
